import Mathlib

/-!
Shallow embedding of the guard orchestration engine of
`src/guardrails/core/guard.py` (AI Safety Guardrails SDK).

Values flowing through the pipeline (payloads, context inputs/outputs,
metadata values, detail values) are Python objects of arbitrary type; the
embedding is parametric in a value type `α`.  Python `None` occurring as a
default value is passed explicitly as a `noneV : α` parameter at the call
sites where the source writes the literal `None`.

Python objects are mutable and aliasing matters for the context claims, so
`RuleContext` (and its two owned collections, the `metadata` dict and the
`tags` list) carry explicit allocation identities (`objId`, `metadataId`,
`tagsId`).  Operations that allocate new Python objects thread a fresh-id
counter; an in-place field assignment keeps the object identity, while a
copying constructor draws new identities from the counter.

Wall-clock latency measurement (`time.perf_counter`) is modelled by a
`timer : Nat → Nat` oracle giving the measured latency of the i-th rule
evaluation of a stage run; no claim depends on the concrete values.

Exceptions are modelled by `PyExc` together with `Except`; the `raise ...
from exc` chaining of the blanket `except Exception` handler in the stage
runners is modelled by the optional `cause` field of the `guardError`
constructor.  The audit logger and performance monitor are modelled by the
trace of events the engine dispatches to them (`Sinks`).
-/

set_option autoImplicit false

namespace Guardrails

/-- Stage literal type: `Stage = Literal["pre", "post"]`. -/
inductive Stage where
  | pre
  | post
deriving DecidableEq, Repr

/-- Render a stage the way the source interpolates it into messages. -/
def Stage.text : Stage → String
  | .pre => "pre"
  | .post => "post"

/-- Evaluation context `RuleContext` (guard.py lines 55-76), with explicit
Python object identities for the context itself and its two owned mutable
collections. -/
structure RuleContext (α : Type) where
  objId : Nat
  inputs : α
  output : α
  metadata : List (String × α)
  metadataId : Nat
  user_id : Option String
  session_id : Option String
  tags : List String
  tagsId : Nat
deriving DecidableEq, Repr

/-- The transform `RuleContext.with_output` (guard.py lines 66-76): builds a
brand-new `RuleContext` whose `metadata` is `dict(self.metadata)` and whose
`tags` is `list(self.tags)`, both freshly allocated copies.  `counter` is
the fresh-id supply; the new context, dict and list take the next three
identities. -/
def RuleContext.with_output {α : Type} (c : RuleContext α) (output : α) (counter : Nat) :
    RuleContext α × Nat :=
  ({ objId := counter
     inputs := c.inputs
     output := output
     metadata := c.metadata
     metadataId := counter + 1
     user_id := c.user_id
     session_id := c.session_id
     tags := c.tags
     tagsId := counter + 2 }, counter + 3)

/-- Freshness of a counter with respect to a context: the counter is larger
than every identity reachable from the context, so ids drawn from it are
new. -/
def RuleContext.fresh {α : Type} (c : RuleContext α) (counter : Nat) : Prop :=
  c.objId < counter ∧ c.metadataId < counter ∧ c.tagsId < counter

instance {α : Type} (c : RuleContext α) (n : Nat) : Decidable (c.fresh n) := by
  unfold RuleContext.fresh; infer_instance

/-- Structured outcome `RuleResult` (guard.py lines 79-91).  Latency is a
`Nat` stand-in for the float milliseconds; only the engine writes it. -/
structure RuleResult (α : Type) where
  rule : String
  passed : Bool
  stage : Stage
  severity : String
  latency_ms : Nat := 0
  details : List (String × α) := []
deriving DecidableEq, Repr

/-- Aggregate report `GuardReport` (guard.py lines 94-108). -/
structure GuardReport (α : Type) where
  context : RuleContext α
  pre_results : List (RuleResult α)
  post_results : List (RuleResult α)
deriving DecidableEq, Repr

/-- Derived property `GuardReport.passed` (guard.py lines 102-104):
`all(result.passed for result in self.pre_results + self.post_results)`. -/
def GuardReport.passed {α : Type} (r : GuardReport α) : Bool :=
  (r.pre_results ++ r.post_results).all (fun result => result.passed)

/-- Derived property `GuardReport.failures` (guard.py lines 106-108):
`[r for r in self.pre_results + self.post_results if not r.passed]`. -/
def GuardReport.failures {α : Type} (r : GuardReport α) : List (RuleResult α) :=
  (r.pre_results ++ r.post_results).filter (fun x => !x.passed)

/-- Exception hierarchy of guard.py lines 28-52.  `guardError` is the plain
base-class instance `GuardError(msg)`; its optional `cause` models the
`raise GuardError(str(exc)) from exc` chaining.  A `guardViolation` carries
`results` and `context` exactly as `GuardViolation.__init__` stores them. -/
inductive PyExc (α : Type) where
  | guardError (msg : String) (cause : Option (PyExc α))
  | guardConfigError (msg : String)
  | guardViolation (msg : String) (results : List (RuleResult α)) (context : RuleContext α)
  | rbacError (msg : String)
deriving Repr

/-- The `str(exc)` of an exception: its message. -/
def PyExc.text {α : Type} : PyExc α → String
  | .guardError m _ => m
  | .guardConfigError m => m
  | .guardViolation m _ _ => m
  | .rbacError m => m

/-- Class test `isinstance(e, GuardViolation)`: true only for the
`GuardViolation` subclass, not for a plain base-class `GuardError`. -/
def PyExc.isViolation {α : Type} : PyExc α → Bool
  | .guardViolation _ _ _ => true
  | _ => false

/-- Class test `isinstance(e, RBACError)`. -/
def PyExc.isRbac {α : Type} : PyExc α → Bool
  | .rbacError _ => true
  | _ => false

/-- The structured event `_after_rule` builds (guard.py lines 421-431). -/
structure AuditEvent (α : Type) where
  rule : String
  passed : Bool
  stage : Stage
  latency_ms : Nat
  severity : String
  details : List (String × α)
  user_id : Option String
  session_id : Option String
  tags : List String
deriving DecidableEq, Repr

/-- Per-call trace of what the engine dispatched to the audit logger
(`audit_logger.log_event`) and the performance monitor
(`performance_monitor.record`). -/
structure Sinks (α : Type) where
  auditEvents : List (AuditEvent α)
  perfEvents : List (RuleResult α × RuleContext α)
deriving DecidableEq, Repr

/-- The empty trace (nothing dispatched yet in this call). -/
def Sinks.empty {α : Type} : Sinks α := ⟨[], []⟩

/-- Event construction of `Guard._after_rule` (guard.py lines 421-431). -/
def mkAuditEvent {α : Type} (result : RuleResult α) (context : RuleContext α) : AuditEvent α :=
  { rule := result.rule
    passed := result.passed
    stage := result.stage
    latency_ms := result.latency_ms
    severity := result.severity
    details := result.details
    user_id := context.user_id
    session_id := context.session_id
    tags := context.tags }

/-- Dispatch of `Guard._after_rule` (guard.py lines 420-433): one audit
event and one latency record per computed result. -/
def Sinks.after_rule {α : Type} (s : Sinks α) (result : RuleResult α) (context : RuleContext α) :
    Sinks α :=
  { auditEvents := s.auditEvents ++ [mkAuditEvent result context]
    perfEvents := s.perfEvents ++ [(result, context)] }

/-- A configured rule: the `BaseRule` state set up by `BaseRule.__init__`
(guard.py lines 155-175) plus the two evaluation entry points.  A concrete
subclass provides `evaluate`; `evaluate_async` defaults to running
`evaluate` (guard.py lines 193-195), and a rule that overrides it supplies
its own function. -/
structure BaseRule (α : Type) where
  name : String
  stages : List Stage
  required_roles : List String
  config : List (String × α)
  enabled : Bool
  severity : String := "high"
  evaluate : α → RuleContext α → Stage → RuleResult α
  evaluate_async : α → RuleContext α → Stage → RuleResult α

/-- Constructor guard of `BaseRule.__init__` (guard.py lines 169-170):
an empty stage sequence is a configuration error, detected eagerly. -/
def BaseRule.mk_checked {α : Type} (name : String) (stages : List Stage)
    (required_roles : List String) (config : List (String × α)) (enabled : Bool)
    (severity : String) (evaluate evaluate_async : α → RuleContext α → Stage → RuleResult α) :
    Except (PyExc α) (BaseRule α) :=
  if stages.isEmpty then
    .error (.guardConfigError "At least one stage must be specified for a rule.")
  else
    .ok { name := name, stages := stages, required_roles := required_roles,
          config := config, enabled := enabled, severity := severity,
          evaluate := evaluate, evaluate_async := evaluate_async }

/-- Membership test `BaseRule.supports_stage` (guard.py lines 177-178). -/
def BaseRule.supports_stage {α : Type} (rule : BaseRule α) (stage : Stage) : Bool :=
  rule.stages.contains stage

/-- RBAC pre-check `BaseRule.validate_roles` (guard.py lines 180-187):
no-op when no roles are required; raises `RBACError` unless the assigned
roles form a superset of the required roles (Python set semantics, so list
order and duplicates are irrelevant). -/
def BaseRule.validate_roles {α : Type} (rule : BaseRule α) (assigned : List String) :
    Except (PyExc α) Unit :=
  if rule.required_roles.isEmpty then
    .ok ()
  else if rule.required_roles.all (fun role => assigned.contains role) then
    .ok ()
  else
    .error (.rbacError ("Rule '" ++ rule.name ++ "' requires roles that were not provided."))

/-- Guard configuration (guard.py lines 198-218): the ordered rule list,
the optional RBAC resolver and the guard name.  The audit logger and
performance monitor are represented by the dispatched-event trace. -/
structure Guard (α : Type) where
  rules : List (BaseRule α)
  rbac_resolver : Option (RuleContext α → List String)
  name : String

/-- Constructor guard of `Guard.__init__` (guard.py lines 211-212): an
empty rule list is a configuration error, detected eagerly. -/
def Guard.mk_checked {α : Type} (rules : List (BaseRule α))
    (rbac_resolver : Option (RuleContext α → List String)) (name : String) :
    Except (PyExc α) (Guard α) :=
  if rules.isEmpty then
    .error (.guardConfigError "At least one rule must be supplied to the guard.")
  else
    .ok { rules := rules, rbac_resolver := rbac_resolver, name := name }

/-- Stage selection `Guard._rules_for_stage` (guard.py lines 332-333). -/
def Guard.rules_for_stage {α : Type} (g : Guard α) (stage : Stage) : List (BaseRule α) :=
  g.rules.filter (fun rule => rule.enabled && rule.supports_stage stage)

/-- Role resolution `Guard._resolve_roles` combined with the `list(...)`
materialisation at its call sites (guard.py lines 335-338, 349, 376):
empty role set when no resolver is configured. -/
def Guard.resolve_roles {α : Type} (g : Guard α) (context : RuleContext α) : List String :=
  match g.rbac_resolver with
  | none => []
  | some resolver => resolver context

/-- Latency-stamped evaluation `Guard._execute_rule` (guard.py lines
394-405): run `rule.evaluate` and overwrite `latency_ms` with the measured
elapsed time. -/
def execute_rule {α : Type} (rule : BaseRule α) (payload : α) (context : RuleContext α)
    (stage : Stage) (elapsed : Nat) : RuleResult α :=
  let result := rule.evaluate payload context stage
  { result with latency_ms := elapsed }

/-- Latency-stamped evaluation `Guard._execute_rule_async` (guard.py lines
407-418), which awaits `rule.evaluate_async`. -/
def execute_rule_async {α : Type} (rule : BaseRule α) (payload : α) (context : RuleContext α)
    (stage : Stage) (elapsed : Nat) : RuleResult α :=
  let result := rule.evaluate_async payload context stage
  { result with latency_ms := elapsed }

/-- Message of the `GuardViolation` raised by the stage runners (guard.py
lines 357-358, 384-385). -/
def violationText (ruleName : String) (stage : Stage) : String :=
  "Guardrail '" ++ ruleName ++ "' failed during " ++ stage.text ++ "-stage validation."

/-- Rule loop of `Guard._run_stage_sync` (guard.py lines 348-365).  Each
iteration validates roles, evaluates the rule, appends the result,
dispatches to both sinks, and in Protect mode raises a `GuardViolation` on
a failing result.  The whole body sits inside `except Exception as exc:`
which re-raises every exception as `GuardError(str(exc)) from exc` — this
applies to the `RBACError` from `validate_roles` and to the
`GuardViolation` itself, so the surfaced exception is always a plain
`GuardError` wrapper whose `cause` is the original exception.  `i` counts
rule evaluations of this stage run for the latency oracle. -/
def run_rules_sync {α : Type} (stage : Stage) (payload : α) (context : RuleContext α)
    (raise_on_failure : Bool) (roles : List String) (timer : Nat → Nat) :
    List (BaseRule α) → Nat → List (RuleResult α) → Sinks α →
    Sinks α × Except (PyExc α) (List (RuleResult α))
  | [], _, results, sinks => (sinks, .ok results)
  | rule :: rest, i, results, sinks =>
    match rule.validate_roles roles with
    | .error exc => (sinks, .error (.guardError exc.text (some exc)))
    | .ok _ =>
      let result := execute_rule rule payload context stage (timer i)
      let results2 := results ++ [result]
      let sinks2 := sinks.after_rule result context
      if !result.passed && raise_on_failure then
        let v : PyExc α := .guardViolation (violationText rule.name stage) [result] context
        (sinks2, .error (.guardError v.text (some v)))
      else
        run_rules_sync stage payload context raise_on_failure roles timer rest (i + 1)
          results2 sinks2

/-- Stage runner `Guard._run_stage_sync` (guard.py lines 340-365): resolve
roles once per stage invocation, then iterate over the selected rules.
`sinks` is the dispatched-event trace accumulated so far in this call. -/
def Guard.run_stage_sync {α : Type} (g : Guard α) (stage : Stage) (payload : α)
    (context : RuleContext α) (raise_on_failure : Bool) (timer : Nat → Nat) (sinks : Sinks α) :
    Sinks α × Except (PyExc α) (List (RuleResult α)) :=
  let roles := g.resolve_roles context
  run_rules_sync stage payload context raise_on_failure roles timer
    (g.rules_for_stage stage) 0 [] sinks

/-- Rule loop of the async stage runner `Guard._run_stage` (guard.py lines
375-392); identical to the sync loop except that evaluation goes through
`_execute_rule_async`. -/
def run_rules {α : Type} (stage : Stage) (payload : α) (context : RuleContext α)
    (raise_on_failure : Bool) (roles : List String) (timer : Nat → Nat) :
    List (BaseRule α) → Nat → List (RuleResult α) → Sinks α →
    Sinks α × Except (PyExc α) (List (RuleResult α))
  | [], _, results, sinks => (sinks, .ok results)
  | rule :: rest, i, results, sinks =>
    match rule.validate_roles roles with
    | .error exc => (sinks, .error (.guardError exc.text (some exc)))
    | .ok _ =>
      let result := execute_rule_async rule payload context stage (timer i)
      let results2 := results ++ [result]
      let sinks2 := sinks.after_rule result context
      if !result.passed && raise_on_failure then
        let v : PyExc α := .guardViolation (violationText rule.name stage) [result] context
        (sinks2, .error (.guardError v.text (some v)))
      else
        run_rules stage payload context raise_on_failure roles timer rest (i + 1)
          results2 sinks2

/-- Async stage runner `Guard._run_stage` (guard.py lines 367-392). -/
def Guard.run_stage {α : Type} (g : Guard α) (stage : Stage) (payload : α)
    (context : RuleContext α) (raise_on_failure : Bool) (timer : Nat → Nat) (sinks : Sinks α) :
    Sinks α × Except (PyExc α) (List (RuleResult α)) :=
  let roles := g.resolve_roles context
  run_rules stage payload context raise_on_failure roles timer
    (g.rules_for_stage stage) 0 [] sinks

/-- Result of a `check` / `check_async` call.  `callerContext` is the state
of the context object the call operated on after the call returns: `check`
with `stage="pre"` mutates the supplied context in place
(`context.inputs = payload`), while `stage="post"` only rebinds a local
name to a `with_output` copy, leaving the supplied object untouched. -/
structure CheckOutcome (α : Type) where
  callerContext : RuleContext α
  sinks : Sinks α
  outcome : Except (PyExc α) (GuardReport α)

/-- Default context materialisation `context or RuleContext(inputs=None,
output=None, metadata={})` (guard.py lines 275, 304): a dataclass instance
is always truthy, so a supplied context is used as-is; otherwise a fresh
context, dict and list are allocated. -/
def materializeContext {α : Type} (contextOpt : Option (RuleContext α)) (noneV : α)
    (counter : Nat) : RuleContext α × Nat :=
  match contextOpt with
  | some c => (c, counter)
  | none =>
    ({ objId := counter
       inputs := noneV
       output := noneV
       metadata := []
       metadataId := counter + 1
       user_id := none
       session_id := none
       tags := []
       tagsId := counter + 2 }, counter + 3)

/-- Manual check entry point `Guard.check` (guard.py lines 267-294).  In
the "pre" branch the supplied context is mutated in place
(`context.inputs = payload`) and that same object becomes the report's
context; in the "post" branch the local name is rebound to
`context.with_output(payload)` and the copy becomes the report's context.
Check mode never raises on a failing rule (`raise_on_failure=False`), but
an exception from the stage runner (e.g. a wrapped RBAC denial)
propagates. -/
def Guard.check {α : Type} (g : Guard α) (payload : α) (stage : Stage)
    (contextOpt : Option (RuleContext α)) (noneV : α) (timer : Nat → Nat) (counter : Nat) :
    CheckOutcome α :=
  let mc := materializeContext contextOpt noneV counter
  let context := mc.1
  let counter1 := mc.2
  match stage with
  | .pre =>
    let context2 := { context with inputs := payload }
    let run := g.run_stage_sync .pre payload context2 false timer Sinks.empty
    match run.2 with
    | .error exc => ⟨context2, run.1, .error exc⟩
    | .ok pre_results =>
      ⟨context2, run.1, .ok ⟨context2, pre_results, []⟩⟩
  | .post =>
    let wo := context.with_output payload counter1
    let context2 := wo.1
    let run := g.run_stage_sync .post payload context2 false timer Sinks.empty
    match run.2 with
    | .error exc => ⟨context, run.1, .error exc⟩
    | .ok post_results =>
      ⟨context, run.1, .ok ⟨context2, [], post_results⟩⟩

/-- Async variant `Guard.check_async` (guard.py lines 296-323); identical
to `check` except the stage run awaits the async runner. -/
def Guard.check_async {α : Type} (g : Guard α) (payload : α) (stage : Stage)
    (contextOpt : Option (RuleContext α)) (noneV : α) (timer : Nat → Nat) (counter : Nat) :
    CheckOutcome α :=
  let mc := materializeContext contextOpt noneV counter
  let context := mc.1
  let counter1 := mc.2
  match stage with
  | .pre =>
    let context2 := { context with inputs := payload }
    let run := g.run_stage .pre payload context2 false timer Sinks.empty
    match run.2 with
    | .error exc => ⟨context2, run.1, .error exc⟩
    | .ok pre_results =>
      ⟨context2, run.1, .ok ⟨context2, pre_results, []⟩⟩
  | .post =>
    let wo := context.with_output payload counter1
    let context2 := wo.1
    let run := g.run_stage .post payload context2 false timer Sinks.empty
    match run.2 with
    | .error exc => ⟨context, run.1, .error exc⟩
    | .ok post_results =>
      ⟨context, run.1, .ok ⟨context2, [], post_results⟩⟩

/-- Context construction `Guard._build_context` (guard.py lines 328-330).
`argsKwargs` is the encoding of the Python dict
`{"args": args, "kwargs": kwargs}` as a value of `α`, and `guardNameVal`
the encoding of the guard's name string stored under `"guard_name"`. -/
def Guard.build_context {α : Type} (_g : Guard α) (argsKwargs : α) (guardNameVal : α)
    (noneV : α) (counter : Nat) : RuleContext α × Nat :=
  ({ objId := counter
     inputs := argsKwargs
     output := noneV
     metadata := [("guard_name", guardNameVal)]
     metadataId := counter + 1
     user_id := none
     session_id := none
     tags := []
     tagsId := counter + 2 }, counter + 3)

/-- One invocation of the sync wrapper produced by `Guard.protect`
(guard.py lines 247-265): build a context, run the pre stage with
`raise_on_failure=True` on `context.inputs`, call the wrapped function,
derive the post context via `with_output`, run the post stage with
`raise_on_failure=True` on its `output`, and return the function's result.
An exception from either stage run propagates to the caller; sink
dispatches already performed are kept. -/
def Guard.protect_sync_call {α : Type} (g : Guard α) (func : α → α) (argsKwargs : α)
    (guardNameVal : α) (noneV : α) (timerPre timerPost : Nat → Nat) (counter : Nat) :
    Sinks α × Except (PyExc α) α :=
  let bc := g.build_context argsKwargs guardNameVal noneV counter
  let context := bc.1
  let counter1 := bc.2
  let runPre := g.run_stage_sync .pre context.inputs context true timerPre Sinks.empty
  match runPre.2 with
  | .error exc => (runPre.1, .error exc)
  | .ok _ =>
    let result := func argsKwargs
    let wo := context.with_output result counter1
    let contextOut := wo.1
    let runPost := g.run_stage_sync .post contextOut.output contextOut true timerPost runPre.1
    match runPost.2 with
    | .error exc => (runPost.1, .error exc)
    | .ok _ => (runPost.1, .ok result)

/-! ## Characterization of the stage-runner loop -/

/-- The latency-stamped results of evaluating a list of rules in order,
starting at evaluation index `i` of the stage run. -/
def stageResults {α : Type} (payload : α) (context : RuleContext α) (stage : Stage)
    (timer : Nat → Nat) : List (BaseRule α) → Nat → List (RuleResult α)
  | [], _ => []
  | rule :: rest, i =>
    execute_rule rule payload context stage (timer i) ::
      stageResults payload context stage timer rest (i + 1)

/-- The audit events dispatched for those results, in order. -/
def stageAudit {α : Type} (payload : α) (context : RuleContext α) (stage : Stage)
    (timer : Nat → Nat) (l : List (BaseRule α)) (i : Nat) : List (AuditEvent α) :=
  (stageResults payload context stage timer l i).map (fun r => mkAuditEvent r context)

/-- The performance records dispatched for those results, in order. -/
def stagePerf {α : Type} (payload : α) (context : RuleContext α) (stage : Stage)
    (timer : Nat → Nat) (l : List (BaseRule α)) (i : Nat) :
    List (RuleResult α × RuleContext α) :=
  (stageResults payload context stage timer l i).map (fun r => (r, context))

theorem execute_rule_passed {α : Type} (rule : BaseRule α) (payload : α)
    (context : RuleContext α) (stage : Stage) (elapsed : Nat) :
    (execute_rule rule payload context stage elapsed).passed =
      (rule.evaluate payload context stage).passed := rfl

theorem stageResults_length {α : Type} (payload : α) (context : RuleContext α) (stage : Stage)
    (timer : Nat → Nat) :
    ∀ (l : List (BaseRule α)) (i : Nat),
      (stageResults payload context stage timer l i).length = l.length := by
  intro l
  induction l with
  | nil => intro i; rfl
  | cons rule rest ih => intro i; simp [stageResults, ih]

/-- If every rule in the list passes RBAC and either passes evaluation or
the runner is in Check mode (`raise_on_failure = false`), the loop runs to
the end, returns all results in order, and dispatches exactly one audit
event and one performance record per result. -/
theorem run_rules_sync_no_abort {α : Type} (stage : Stage) (payload : α)
    (context : RuleContext α) (rof : Bool) (roles : List String) (timer : Nat → Nat) :
    ∀ (l : List (BaseRule α)) (i : Nat) (results : List (RuleResult α)) (sinks : Sinks α),
      (∀ r ∈ l, r.validate_roles roles = .ok () ∧
        ((r.evaluate payload context stage).passed = true ∨ rof = false)) →
      run_rules_sync stage payload context rof roles timer l i results sinks =
        ({ auditEvents := sinks.auditEvents ++ stageAudit payload context stage timer l i
           perfEvents := sinks.perfEvents ++ stagePerf payload context stage timer l i },
         .ok (results ++ stageResults payload context stage timer l i)) := by
  intro l
  induction l with
  | nil =>
    intro i results sinks _
    simp [run_rules_sync, stageAudit, stagePerf, stageResults]
  | cons rule rest ih =>
    intro i results sinks h
    obtain ⟨hok, hpass⟩ := h rule (List.mem_cons_self rule rest)
    have hrest := fun r hr => h r (List.mem_cons_of_mem rule hr)
    rw [run_rules_sync, hok]
    have hcond : (!(execute_rule rule payload context stage (timer i)).passed && rof) = false := by
      rcases hpass with hp | hp <;> simp [execute_rule_passed, hp]
    simp only [hcond, Bool.false_eq_true, if_false]
    rw [ih (i + 1) _ _ hrest]
    simp [Sinks.after_rule, stageAudit, stagePerf, stageResults]

/-- Fail-fast characterization: if every rule before `rule` passes (RBAC
and evaluation), `rule` clears RBAC but its evaluation fails, and the
runner is in Protect mode, then the loop stops at `rule`: the sinks receive
events exactly for the prefix through `rule` (the failing result included),
and the surfaced exception is a plain `GuardError` wrapper whose cause is
the `GuardViolation` carrying the single failing result and the context. -/
theorem run_rules_sync_abort {α : Type} (stage : Stage) (payload : α)
    (context : RuleContext α) (roles : List String) (timer : Nat → Nat) :
    ∀ (l₁ : List (BaseRule α)) (rule : BaseRule α) (l₂ : List (BaseRule α)) (i : Nat)
      (results : List (RuleResult α)) (sinks : Sinks α),
      (∀ r ∈ l₁, r.validate_roles roles = .ok () ∧
        (r.evaluate payload context stage).passed = true) →
      rule.validate_roles roles = .ok () →
      (rule.evaluate payload context stage).passed = false →
      run_rules_sync stage payload context true roles timer (l₁ ++ rule :: l₂) i results sinks =
        ({ auditEvents :=
             sinks.auditEvents ++ stageAudit payload context stage timer (l₁ ++ [rule]) i
           perfEvents :=
             sinks.perfEvents ++ stagePerf payload context stage timer (l₁ ++ [rule]) i },
         .error (.guardError (violationText rule.name stage)
           (some (.guardViolation (violationText rule.name stage)
             [execute_rule rule payload context stage (timer (i + l₁.length))] context)))) := by
  intro l₁
  induction l₁ with
  | nil =>
    intro rule l₂ i results sinks _ hok hfail
    rw [List.nil_append, run_rules_sync, hok]
    have hcond : (!(execute_rule rule payload context stage (timer i)).passed && true) = true := by
      simp [execute_rule_passed, hfail]
    simp only [hcond, if_true]
    simp [Sinks.after_rule, stageAudit, stagePerf, stageResults, PyExc.text]
  | cons x rest ih =>
    intro rule l₂ i results sinks h hok hfail
    obtain ⟨hxok, hxpass⟩ := h x (List.mem_cons_self x rest)
    have hrest := fun r hr => h r (List.mem_cons_of_mem x hr)
    rw [List.cons_append, run_rules_sync, hxok]
    have hcond : (!(execute_rule x payload context stage (timer i)).passed && true) = false := by
      simp [execute_rule_passed, hxpass]
    simp only [hcond, Bool.false_eq_true, if_false]
    rw [ih rule l₂ (i + 1) _ _ hrest hok hfail]
    have hidx : i + 1 + rest.length = i + (rest.length + 1) := by omega
    simp [Sinks.after_rule, stageAudit, stagePerf, stageResults, hidx]

/-- RBAC fail-closed characterization at the head of the loop: when the
first rule's role validation raises, nothing is dispatched for it (or any
later rule), no result is produced, and the surfaced exception is the
`GuardError` wrapper whose cause is the `RBACError`. -/
theorem run_rules_sync_rbac_denied {α : Type} (stage : Stage) (payload : α)
    (context : RuleContext α) (rof : Bool) (roles : List String) (timer : Nat → Nat)
    (rule : BaseRule α) (rest : List (BaseRule α)) (i : Nat)
    (results : List (RuleResult α)) (sinks : Sinks α) (exc : PyExc α)
    (hdeny : rule.validate_roles roles = .error exc) :
    run_rules_sync stage payload context rof roles timer (rule :: rest) i results sinks =
      (sinks, .error (.guardError exc.text (some exc))) := by
  rw [run_rules_sync, hdeny]

/-- The loop only ever appends to the audit trace. -/
theorem run_rules_sync_audit_extends {α : Type} (stage : Stage) (payload : α)
    (context : RuleContext α) (rof : Bool) (roles : List String) (timer : Nat → Nat) :
    ∀ (l : List (BaseRule α)) (i : Nat) (results : List (RuleResult α)) (sinks : Sinks α),
      ∃ suffix,
        (run_rules_sync stage payload context rof roles timer l i results sinks).1.auditEvents =
          sinks.auditEvents ++ suffix := by
  intro l
  induction l with
  | nil =>
    intro i results sinks
    exact ⟨[], by simp [run_rules_sync]⟩
  | cons rule rest ih =>
    intro i results sinks
    cases hv : rule.validate_roles roles with
    | error exc => exact ⟨[], by rw [run_rules_sync, hv]; simp⟩
    | ok u =>
      rw [run_rules_sync, hv]
      cases hcond : (!(execute_rule rule payload context stage (timer i)).passed && rof) with
      | true =>
        simp only [hcond, if_true]
        exact ⟨[mkAuditEvent (execute_rule rule payload context stage (timer i)) context],
          by simp [Sinks.after_rule]⟩
      | false =>
        simp only [hcond, Bool.false_eq_true, if_false]
        obtain ⟨suffix, hs⟩ := ih (i + 1)
          (results ++ [execute_rule rule payload context stage (timer i)])
          (sinks.after_rule (execute_rule rule payload context stage (timer i)) context)
        refine ⟨mkAuditEvent (execute_rule rule payload context stage (timer i)) context
          :: suffix, ?_⟩
        rw [hs]
        simp [Sinks.after_rule]

/-- When the head rule clears RBAC, its evaluation result is dispatched to
the audit sink as the next event, whatever happens afterwards. -/
theorem run_rules_sync_head_executed {α : Type} (stage : Stage) (payload : α)
    (context : RuleContext α) (rof : Bool) (roles : List String) (timer : Nat → Nat)
    (rule : BaseRule α) (rest : List (BaseRule α)) (i : Nat)
    (results : List (RuleResult α)) (sinks : Sinks α)
    (hok : rule.validate_roles roles = .ok ()) :
    ∃ suffix,
      (run_rules_sync stage payload context rof roles timer (rule :: rest) i results
          sinks).1.auditEvents =
        sinks.auditEvents ++
          mkAuditEvent (execute_rule rule payload context stage (timer i)) context :: suffix := by
  rw [run_rules_sync, hok]
  cases hcond : (!(execute_rule rule payload context stage (timer i)).passed && rof) with
  | true =>
    simp only [hcond, if_true]
    exact ⟨[], by simp [Sinks.after_rule]⟩
  | false =>
    simp only [hcond, Bool.false_eq_true, if_false]
    obtain ⟨suffix, hs⟩ := run_rules_sync_audit_extends stage payload context rof roles timer
      rest (i + 1) (results ++ [execute_rule rule payload context stage (timer i)])
      (sinks.after_rule (execute_rule rule payload context stage (timer i)) context)
    refine ⟨suffix, ?_⟩
    rw [hs]
    simp [Sinks.after_rule]

/-! ## Latency erasure

Wall-clock latencies differ between two runs even when everything else is
identical, so the sync/async equivalence claim compares runs with the
latency fields zeroed out everywhere. -/

/-- Zero the latency of a result. -/
def eraseRR {α : Type} (r : RuleResult α) : RuleResult α := { r with latency_ms := 0 }

/-- Zero the latencies of a result list. -/
def eraseRL {α : Type} (l : List (RuleResult α)) : List (RuleResult α) := l.map eraseRR

/-- Zero the latency of an audit event. -/
def eraseEvent {α : Type} (e : AuditEvent α) : AuditEvent α := { e with latency_ms := 0 }

/-- Zero the latencies throughout a sink trace. -/
def eraseSinks {α : Type} (s : Sinks α) : Sinks α :=
  ⟨s.auditEvents.map eraseEvent, s.perfEvents.map (fun p => (eraseRR p.1, p.2))⟩

/-- Zero the latencies carried inside an exception (one cause level deep;
the engine never nests further). -/
def eraseExcCore {α : Type} : PyExc α → PyExc α
  | .guardViolation m rs c => .guardViolation m (eraseRL rs) c
  | e => e

/-- Zero the latencies of a surfaced exception and its cause. -/
def eraseExc {α : Type} : PyExc α → PyExc α
  | .guardError m c => .guardError m (c.map eraseExcCore)
  | e => eraseExcCore e

/-- Zero the latencies of a stage-runner outcome. -/
def eraseRun {α : Type} (p : Sinks α × Except (PyExc α) (List (RuleResult α))) :
    Sinks α × Except (PyExc α) (List (RuleResult α)) :=
  (eraseSinks p.1, (p.2.map eraseRL).mapError eraseExc)

/-- Zero the latencies of a report. -/
def eraseReport {α : Type} (r : GuardReport α) : GuardReport α :=
  ⟨r.context, eraseRL r.pre_results, eraseRL r.post_results⟩

/-- Zero the latencies of a whole `check` outcome. -/
def eraseCheck {α : Type} (o : CheckOutcome α) : CheckOutcome α :=
  ⟨o.callerContext, eraseSinks o.sinks, (o.outcome.map eraseReport).mapError eraseExc⟩

theorem eraseEvent_mk {α : Type} (r : RuleResult α) (c : RuleContext α) :
    eraseEvent (mkAuditEvent r c) = mkAuditEvent (eraseRR r) c := rfl

theorem eraseSinks_after {α : Type} (s : Sinks α) (r : RuleResult α) (c : RuleContext α) :
    eraseSinks (s.after_rule r c) =
      ⟨(eraseSinks s).auditEvents ++ [mkAuditEvent (eraseRR r) c],
       (eraseSinks s).perfEvents ++ [(eraseRR r, c)]⟩ := by
  simp [eraseSinks, Sinks.after_rule, eraseEvent_mk]

theorem eraseRL_append_one {α : Type} (l : List (RuleResult α)) (x : RuleResult α) :
    eraseRL (l ++ [x]) = eraseRL l ++ [eraseRR x] := by
  simp [eraseRL]

/-- For rules whose async variant is the default (it just runs `evaluate`),
the async rule loop and the sync rule loop agree up to latency erasure, for
any two latency oracles and any erasure-equal starting accumulators. -/
theorem run_rules_erase_eq {α : Type} (stage : Stage) (payload : α) (context : RuleContext α)
    (rof : Bool) (roles : List String) (t1 t2 : Nat → Nat) :
    ∀ (l : List (BaseRule α)) (i : Nat) (results results' : List (RuleResult α))
      (sinks sinks' : Sinks α),
      (∀ r ∈ l, r.evaluate_async = r.evaluate) →
      eraseRL results = eraseRL results' →
      eraseSinks sinks = eraseSinks sinks' →
      eraseRun (run_rules stage payload context rof roles t2 l i results sinks) =
        eraseRun (run_rules_sync stage payload context rof roles t1 l i results' sinks') := by
  intro l
  induction l with
  | nil =>
    intro i results results' sinks sinks' _ hres hsnk
    simp [run_rules, run_rules_sync, eraseRun, Except.map, hres, hsnk]
  | cons rule rest ih =>
    intro i results results' sinks sinks' h hres hsnk
    have hdef := h rule (List.mem_cons_self rule rest)
    have hrest := fun r hr => h r (List.mem_cons_of_mem rule hr)
    cases hv : rule.validate_roles roles with
    | error exc =>
      rw [run_rules, run_rules_sync, hv]
      simp [eraseRun, Except.mapError, hsnk]
    | ok u =>
      rw [run_rules, run_rules_sync, hv]
      have hra : execute_rule_async rule payload context stage (t2 i) =
          { rule.evaluate payload context stage with latency_ms := t2 i } := by
        simp [execute_rule_async, hdef]
      have herase : eraseRR (execute_rule_async rule payload context stage (t2 i)) =
          eraseRR (execute_rule rule payload context stage (t1 i)) := by
        rw [hra]; rfl
      have hpassed : (execute_rule_async rule payload context stage (t2 i)).passed =
          (execute_rule rule payload context stage (t1 i)).passed := by
        rw [hra]; rfl
      cases hcond : (!(execute_rule rule payload context stage (t1 i)).passed && rof) with
      | true =>
        have hconda : (!(execute_rule_async rule payload context stage (t2 i)).passed
            && rof) = true := by rw [hpassed]; exact hcond
        simp only [hconda, hcond, if_true]
        have hpa : rule.evaluate_async payload context stage =
            rule.evaluate payload context stage := by rw [hdef]
        simp [eraseRun, Except.map, Except.mapError, eraseSinks_after, hsnk, herase,
          eraseExc, eraseExcCore, eraseRL, execute_rule_async, execute_rule, hpa,
          PyExc.text, eraseRR, mkAuditEvent]
      | false =>
        have hconda : (!(execute_rule_async rule payload context stage (t2 i)).passed
            && rof) = false := by rw [hpassed]; exact hcond
        simp only [hconda, hcond, Bool.false_eq_true, if_false]
        apply ih (i + 1) _ _ _ _ hrest
        · rw [eraseRL_append_one, eraseRL_append_one, hres, herase]
        · rw [eraseSinks_after, eraseSinks_after, hsnk, herase]

/-- Stage-runner-level erasure equivalence. -/
theorem run_stage_erase_eq {α : Type} (g : Guard α) (stage : Stage) (payload : α)
    (context : RuleContext α) (rof : Bool) (t1 t2 : Nat → Nat) (sinks : Sinks α)
    (h : ∀ r ∈ g.rules, r.evaluate_async = r.evaluate) :
    eraseRun (g.run_stage stage payload context rof t2 sinks) =
      eraseRun (g.run_stage_sync stage payload context rof t1 sinks) := by
  unfold Guard.run_stage Guard.run_stage_sync
  apply run_rules_erase_eq
  · intro r hr
    exact h r (List.mem_of_mem_filter hr)
  · rfl
  · rfl

theorem eraseRR_passed {α : Type} (r : RuleResult α) : (eraseRR r).passed = r.passed := rfl

theorem eraseReport_passed {α : Type} (r : GuardReport α) :
    (eraseReport r).passed = r.passed := by
  simp [eraseReport, GuardReport.passed, eraseRL, List.all_map, Function.comp_def, eraseRR_passed]

theorem eraseRL_filter_failed {α : Type} :
    ∀ l : List (RuleResult α),
      (eraseRL l).filter (fun x => !x.passed) = eraseRL (l.filter (fun x => !x.passed)) := by
  intro l
  induction l with
  | nil => rfl
  | cons x xs ih =>
    simp only [eraseRL] at ih ⊢
    cases hp : x.passed <;>
      simp [List.filter_cons, eraseRR_passed, hp, ih]

theorem eraseReport_failures {α : Type} (r : GuardReport α) :
    (eraseReport r).failures = eraseRL r.failures := by
  simp only [eraseReport, GuardReport.failures, eraseRL, ← List.map_append]
  exact eraseRL_filter_failed (r.pre_results ++ r.post_results)

/-- With default async rules, `check_async` and `check` agree up to
latency erasure: same caller-context effect, erasure-equal sink traces, and
erasure-equal outcomes (report or exception). -/
theorem check_erase_eq {α : Type} (g : Guard α) (payload : α) (stage : Stage)
    (contextOpt : Option (RuleContext α)) (noneV : α) (t1 t2 : Nat → Nat) (counter : Nat)
    (h : ∀ r ∈ g.rules, r.evaluate_async = r.evaluate) :
    eraseCheck (g.check_async payload stage contextOpt noneV t2 counter) =
      eraseCheck (g.check payload stage contextOpt noneV t1 counter) := by
  cases stage with
  | pre =>
    have hrun := run_stage_erase_eq g .pre payload
      { (materializeContext contextOpt noneV counter).1 with inputs := payload }
      false t1 t2 Sinks.empty h
    have hS := congrArg Prod.fst hrun
    have hE := congrArg Prod.snd hrun
    simp only [eraseRun] at hS hE
    simp only [Guard.check, Guard.check_async]
    cases hA : (g.run_stage .pre payload
        { (materializeContext contextOpt noneV counter).1 with inputs := payload }
        false t2 Sinks.empty).2 with
    | error ea =>
      cases hB : (g.run_stage_sync .pre payload
          { (materializeContext contextOpt noneV counter).1 with inputs := payload }
          false t1 Sinks.empty).2 with
      | error eb =>
        rw [hA, hB] at hE
        simp only [Except.map, Except.mapError, Except.error.injEq] at hE
        simp [eraseCheck, Except.map, Except.mapError, hS, hE]
      | ok rb =>
        rw [hA, hB] at hE
        simp [Except.map, Except.mapError] at hE
    | ok ra =>
      cases hB : (g.run_stage_sync .pre payload
          { (materializeContext contextOpt noneV counter).1 with inputs := payload }
          false t1 Sinks.empty).2 with
      | error eb =>
        rw [hA, hB] at hE
        simp [Except.map, Except.mapError] at hE
      | ok rb =>
        rw [hA, hB] at hE
        simp only [Except.map, Except.mapError, Except.error.injEq, Except.ok.injEq,
          eraseRL] at hE
        simp [eraseCheck, Except.map, Except.mapError, hS, eraseReport, eraseRL, hE]
  | post =>
    have hrun := run_stage_erase_eq g .post payload
      ((materializeContext contextOpt noneV counter).1.with_output payload
        (materializeContext contextOpt noneV counter).2).1
      false t1 t2 Sinks.empty h
    have hS := congrArg Prod.fst hrun
    have hE := congrArg Prod.snd hrun
    simp only [eraseRun] at hS hE
    simp only [Guard.check, Guard.check_async]
    cases hA : (g.run_stage .post payload
        ((materializeContext contextOpt noneV counter).1.with_output payload
          (materializeContext contextOpt noneV counter).2).1
        false t2 Sinks.empty).2 with
    | error ea =>
      cases hB : (g.run_stage_sync .post payload
          ((materializeContext contextOpt noneV counter).1.with_output payload
            (materializeContext contextOpt noneV counter).2).1
          false t1 Sinks.empty).2 with
      | error eb =>
        rw [hA, hB] at hE
        simp only [Except.map, Except.mapError, Except.error.injEq] at hE
        simp [eraseCheck, Except.map, Except.mapError, hS, hE]
      | ok rb =>
        rw [hA, hB] at hE
        simp [Except.map, Except.mapError] at hE
    | ok ra =>
      cases hB : (g.run_stage_sync .post payload
          ((materializeContext contextOpt noneV counter).1.with_output payload
            (materializeContext contextOpt noneV counter).2).1
          false t1 Sinks.empty).2 with
      | error eb =>
        rw [hA, hB] at hE
        simp [Except.map, Except.mapError] at hE
      | ok rb =>
        rw [hA, hB] at hE
        simp only [Except.map, Except.mapError, Except.error.injEq, Except.ok.injEq,
          eraseRL] at hE
        simp [eraseCheck, Except.map, Except.mapError, hS, eraseReport, eraseRL, hE]

/-! ## Concrete fixtures (value type `Nat`, Python `None` encoded as `0`) -/

/-- Class of the surfaced exception of an outcome: `some true` when a
`GuardViolation` (subclass) instance reaches the caller, `some false` when
only a base-class `GuardError` does, `none` when nothing is raised. -/
def surfacedViolation {α β : Type} : Except (PyExc α) β → Option Bool
  | .error e => some e.isViolation
  | .ok _ => none

/-- Does a construction attempt succeed? -/
def exceptOk {ε β : Type} : Except ε β → Bool
  | .ok _ => true
  | .error _ => false

/-- A rule that always passes, participating in both stages. -/
def passRule : BaseRule Nat :=
  { name := "pass_rule", stages := [.pre, .post], required_roles := [], config := [],
    enabled := true, severity := "low",
    evaluate := fun _ _ st =>
      { rule := "pass_rule", passed := true, stage := st, severity := "low" },
    evaluate_async := fun _ _ st =>
      { rule := "pass_rule", passed := true, stage := st, severity := "low" } }

/-- A rule that always fails, participating in both stages. -/
def failRule : BaseRule Nat :=
  { name := "fail_rule", stages := [.pre, .post], required_roles := [], config := [],
    enabled := true, severity := "high",
    evaluate := fun _ _ st =>
      { rule := "fail_rule", passed := false, stage := st, severity := "high" },
    evaluate_async := fun _ _ st =>
      { rule := "fail_rule", passed := false, stage := st, severity := "high" } }

/-- A spy rule placed after a failing rule; under fail-fast it must never
show up in the sink traces. -/
def spyRule : BaseRule Nat :=
  { name := "spy_rule", stages := [.pre, .post], required_roles := [], config := [],
    enabled := true, severity := "low",
    evaluate := fun _ _ st =>
      { rule := "spy_rule", passed := true, stage := st, severity := "low" },
    evaluate_async := fun _ _ st =>
      { rule := "spy_rule", passed := true, stage := st, severity := "low" } }

/-- A passing rule gated on the `admin` role. -/
def adminRule : BaseRule Nat :=
  { name := "admin_rule", stages := [.post], required_roles := ["admin"], config := [],
    enabled := true, severity := "high",
    evaluate := fun _ _ st =>
      { rule := "admin_rule", passed := true, stage := st, severity := "high" },
    evaluate_async := fun _ _ st =>
      { rule := "admin_rule", passed := true, stage := st, severity := "high" } }

/-- Guard with a single always-failing rule. -/
def gFail : Guard Nat := { rules := [failRule], rbac_resolver := none, name := "guard" }

/-- Guard whose second rule fails, with a spy rule behind it. -/
def gSpy : Guard Nat :=
  { rules := [passRule, failRule, spyRule], rbac_resolver := none, name := "guard" }

/-- Guard with a single RBAC-gated rule and no resolver. -/
def gAdmin : Guard Nat := { rules := [adminRule], rbac_resolver := none, name := "guard" }

/-- Guard with a passing and a failing rule (default async variants). -/
def gDemo : Guard Nat := { rules := [passRule, failRule], rbac_resolver := none, name := "guard" }

/-- The constant-zero latency oracle. -/
def timer0 : Nat → Nat := fun _ => 0

/-- A sample caller-supplied context. -/
def ctxDemo : RuleContext Nat :=
  { objId := 0, inputs := 3, output := 0, metadata := [("k", 1)], metadataId := 1,
    user_id := some "u", session_id := some "s", tags := ["t"], tagsId := 2 }

/-! ## Claims -/

/-- C1: the claim says a Protect-mode call with a failing rule surfaces a
`GuardViolation` carrying the single failing result and the context.  The
code instead surfaces a plain base-class `GuardError`: the stage runner's
blanket `except Exception` handler catches the `GuardViolation` it has just
raised and re-raises `GuardError(str(exc)) from exc`, so the exception that
reaches the caller is not a `GuardViolation` and carries results and
context only on its `__cause__`.  This contradicts the repository's own
test `tests/test_guard.py::test_guard_blocks_pii_detection`, which expects
`pytest.raises(GuardViolation)` to succeed.  This theorem evaluates the
embedded code at a failing input and exhibits the wrapped shape. -/
theorem C1_protect_violation_wrapped_into_guard_error :
    (gFail.protect_sync_call (fun x => x) 7 1 0 timer0 timer0 100).2 =
      .error (.guardError (violationText "fail_rule" .pre)
        (some (.guardViolation (violationText "fail_rule" .pre)
          [{ rule := "fail_rule", passed := false, stage := .pre, severity := "high",
             latency_ms := 0, details := [] }]
          { objId := 100, inputs := 7, output := 0, metadata := [("guard_name", 1)],
            metadataId := 101, user_id := none, session_id := none, tags := [],
            tagsId := 102 }))) ∧
    surfacedViolation (gFail.protect_sync_call (fun x => x) 7 1 0 timer0 timer0 100).2 =
      some false :=
  ⟨rfl, rfl⟩

/-- C3 counterexample: `check(payload, stage="post")` does not always
return a report.  With a rule requiring the `admin` role and no RBAC
resolver configured, the resolved role set is empty, `validate_roles`
raises, the stage runner wraps the `RBACError` in a `GuardError`, and
`check` propagates it instead of returning a `GuardReport`. -/
theorem C3_rbac_denial_makes_check_raise :
    (gAdmin.check 5 .post none 0 timer0 0).outcome =
      .error (.guardError ("Rule '" ++ "admin_rule" ++ "' requires roles that were not provided.")
        (some (.rbacError
          ("Rule '" ++ "admin_rule" ++ "' requires roles that were not provided.")))) ∧
    exceptOk (gAdmin.check 5 .post none 0 timer0 0).outcome = false :=
  ⟨rfl, rfl⟩

/-- C3 (amended): provided every selected post-stage rule clears RBAC
validation (in particular whenever no rule requires roles), `check(payload,
stage="post")` never raises — failing rules are accumulated as results —
and returns a report whose `post_results` has one entry per enabled rule
supporting "post" (in configuration order) and whose `pre_results` is
empty. -/
theorem C3_check_post_full_report {α : Type} (g : Guard α) (payload : α)
    (contextOpt : Option (RuleContext α)) (noneV : α) (timer : Nat → Nat) (counter : Nat)
    (hroles : ∀ r ∈ g.rules_for_stage .post,
      r.validate_roles (g.resolve_roles
        ((materializeContext contextOpt noneV counter).1.with_output payload
          (materializeContext contextOpt noneV counter).2).1) = .ok ()) :
    (g.check payload .post contextOpt noneV timer counter).outcome =
      .ok ⟨((materializeContext contextOpt noneV counter).1.with_output payload
              (materializeContext contextOpt noneV counter).2).1,
           [],
           stageResults payload
             ((materializeContext contextOpt noneV counter).1.with_output payload
               (materializeContext contextOpt noneV counter).2).1
             .post timer (g.rules_for_stage .post) 0⟩ ∧
    (stageResults payload
        ((materializeContext contextOpt noneV counter).1.with_output payload
          (materializeContext contextOpt noneV counter).2).1
        .post timer (g.rules_for_stage .post) 0).length =
      (g.rules_for_stage .post).length := by
  constructor
  · simp only [Guard.check, Guard.run_stage_sync]
    rw [run_rules_sync_no_abort _ _ _ _ _ _ _ _ _ _
      (fun r hr => ⟨hroles r hr, Or.inr rfl⟩)]
    simp
  · exact stageResults_length _ _ _ _ _ _

/-- C3 witness: a guard whose single (failing) rule requires no roles
satisfies the RBAC hypothesis, and the check indeed returns the full
report. -/
theorem C3_check_post_full_report_witness :
    (gFail.check 5 .post (some ctxDemo) 0 timer0 10).outcome =
      .ok ⟨((materializeContext (some ctxDemo) 0 10).1.with_output 5
              (materializeContext (some ctxDemo) 0 10).2).1,
           [],
           stageResults 5
             ((materializeContext (some ctxDemo) 0 10).1.with_output 5
               (materializeContext (some ctxDemo) 0 10).2).1
             .post timer0 (gFail.rules_for_stage .post) 0⟩ :=
  (C3_check_post_full_report gFail 5 (some ctxDemo) 0 timer0 10
    (by intro r hr; fin_cases hr; rfl)).1

/-- C5: a report's `passed` is the conjunction of the pass flags of all
results, pre-stage before post-stage (vacuously true when both lists are
empty), and `failures` is the failing sublist in that same execution
order, every pre-stage failure preceding every post-stage failure. -/
theorem C5_report_passed_and_failures {α : Type} (report : GuardReport α) :
    (report.passed = true ↔
      ∀ r ∈ report.pre_results ++ report.post_results, r.passed = true) ∧
    report.failures =
      report.pre_results.filter (fun r => !r.passed) ++
        report.post_results.filter (fun r => !r.passed) ∧
    (report.pre_results = [] → report.post_results = [] → report.passed = true) := by
  refine ⟨by simp [GuardReport.passed, List.all_eq_true, or_imp, forall_and], ?_, ?_⟩
  · simp [GuardReport.failures, List.filter_append]
  · intro h1 h2
    simp [GuardReport.passed, h1, h2]

/-- C5 witness: the vacuous case at a concrete empty report. -/
theorem C5_report_passed_and_failures_witness :
    GuardReport.passed ⟨ctxDemo, [], []⟩ = true :=
  (C5_report_passed_and_failures ⟨ctxDemo, [], []⟩).2.2 rfl rfl

/-- C8: `with_output` builds a new context whose `output` is the given
value, whose `inputs`, `user_id` and `session_id` are those of the
original, and whose `metadata` and `tags` are content-equal copies held in
freshly allocated collections whose identities differ from both of the
original's collections; the original context is not written to (the
transform reads `c` only and returns a new object). -/
theorem C8_with_output_pure_copy {α : Type} (c : RuleContext α) (o : α) (counter : Nat)
    (h : c.fresh counter) :
    (c.with_output o counter).1.output = o ∧
    (c.with_output o counter).1.inputs = c.inputs ∧
    (c.with_output o counter).1.user_id = c.user_id ∧
    (c.with_output o counter).1.session_id = c.session_id ∧
    (c.with_output o counter).1.metadata = c.metadata ∧
    (c.with_output o counter).1.tags = c.tags ∧
    (c.with_output o counter).1.objId ≠ c.objId ∧
    (c.with_output o counter).1.metadataId ≠ c.metadataId ∧
    (c.with_output o counter).1.metadataId ≠ c.tagsId ∧
    (c.with_output o counter).1.tagsId ≠ c.tagsId ∧
    (c.with_output o counter).1.tagsId ≠ c.metadataId ∧
    (c.with_output o counter).2 = counter + 3 := by
  obtain ⟨h1, h2, h3⟩ := h
  refine ⟨rfl, rfl, rfl, rfl, rfl, rfl, ?_, ?_, ?_, ?_, ?_, rfl⟩ <;>
    simp only [RuleContext.with_output] <;> omega

/-- C8 witness at a concrete context and counter. -/
theorem C8_with_output_pure_copy_witness :
    ctxDemo.fresh 10 ∧ (ctxDemo.with_output 9 10).1.output = 9 :=
  ⟨by decide, (C8_with_output_pure_copy ctxDemo 9 10 (by decide)).1⟩

/-- C9: constructing a Guard from an empty rule list, or a rule with an
empty stage sequence, fails eagerly with the configuration error; with a
non-empty rule list / stage sequence the constructor succeeds (no
configuration error). -/
theorem C9_empty_configuration_rejected {α : Type} (rules : List (BaseRule α))
    (resolver : Option (RuleContext α → List String)) (name : String) (stages : List Stage)
    (rroles : List String) (cfg : List (String × α)) (en : Bool) (sev : String)
    (f fa : α → RuleContext α → Stage → RuleResult α) :
    (Guard.mk_checked ([] : List (BaseRule α)) resolver name =
      .error (.guardConfigError "At least one rule must be supplied to the guard.")) ∧
    (rules ≠ [] → Guard.mk_checked rules resolver name =
      .ok { rules := rules, rbac_resolver := resolver, name := name }) ∧
    (BaseRule.mk_checked name [] rroles cfg en sev f fa =
      .error (.guardConfigError "At least one stage must be specified for a rule.")) ∧
    (stages ≠ [] → BaseRule.mk_checked name stages rroles cfg en sev f fa =
      .ok { name := name, stages := stages, required_roles := rroles, config := cfg,
            enabled := en, severity := sev, evaluate := f, evaluate_async := fa }) := by
  refine ⟨rfl, ?_, rfl, ?_⟩
  · intro hne
    simp [Guard.mk_checked, List.isEmpty_iff, hne]
  · intro hne
    simp [BaseRule.mk_checked, List.isEmpty_iff, hne]

/-- C9 witness: the empty cases reject and a concrete non-empty guard and
rule construct successfully. -/
theorem C9_empty_configuration_rejected_witness :
    (Guard.mk_checked ([] : List (BaseRule Nat)) none "g" =
      .error (.guardConfigError "At least one rule must be supplied to the guard.")) ∧
    Guard.mk_checked [passRule] none "g" =
      .ok { rules := [passRule], rbac_resolver := none, name := "g" } :=
  ⟨(C9_empty_configuration_rejected [passRule] none "g" [Stage.pre] [] [] true "low"
      passRule.evaluate passRule.evaluate).1,
   (C9_empty_configuration_rejected [passRule] none "g" [Stage.pre] [] [] true "low"
      passRule.evaluate passRule.evaluate).2.1 (by simp)⟩

/-- C10: `check(payload, stage="pre", context=c)` assigns `c.inputs =
payload` in place before running the pre stage — the caller's object is
mutated (same identity) and is also the context of the returned report —
whereas `check(payload, stage="post", context=c)` leaves the caller's
object untouched and builds the report around a freshly derived
`with_output` copy whose `output` is the payload. -/
theorem C10_check_context_mutation {α : Type} (g : Guard α) (payload : α)
    (c : RuleContext α) (noneV : α) (timer : Nat → Nat) (counter : Nat)
    (h : c.fresh counter) :
    (g.check payload .pre (some c) noneV timer counter).callerContext =
      { c with inputs := payload } ∧
    (g.check payload .pre (some c) noneV timer counter).callerContext.objId = c.objId ∧
    (∀ rep, (g.check payload .pre (some c) noneV timer counter).outcome = .ok rep →
      rep.context = { c with inputs := payload }) ∧
    (g.check payload .post (some c) noneV timer counter).callerContext = c ∧
    (∀ rep, (g.check payload .post (some c) noneV timer counter).outcome = .ok rep →
      rep.context = (c.with_output payload counter).1 ∧
      rep.context.output = payload ∧
      rep.context.objId ≠ c.objId) := by
  obtain ⟨h1, _, _⟩ := h
  refine ⟨?_, ?_, ?_, ?_, ?_⟩
  · simp only [Guard.check, materializeContext]
    cases hres : (g.run_stage_sync .pre payload { c with inputs := payload }
        false timer Sinks.empty).2 <;> simp [hres]
  · simp only [Guard.check, materializeContext]
    cases hres : (g.run_stage_sync .pre payload { c with inputs := payload }
        false timer Sinks.empty).2 <;> simp [hres]
  · intro rep hrep
    simp only [Guard.check, materializeContext] at hrep
    cases hres : (g.run_stage_sync .pre payload { c with inputs := payload }
        false timer Sinks.empty).2 <;>
      simp only [hres] at hrep
    · exact absurd hrep (by simp)
    · have hctx : rep.context = { c with inputs := payload } := by
        simp at hrep
        rw [← hrep]
      exact hctx
  · simp only [Guard.check, materializeContext]
    cases hres : (g.run_stage_sync .post payload (c.with_output payload counter).1
        false timer Sinks.empty).2 <;> simp [hres]
  · intro rep hrep
    simp only [Guard.check, materializeContext] at hrep
    cases hres : (g.run_stage_sync .post payload (c.with_output payload counter).1
        false timer Sinks.empty).2 <;>
      simp only [hres] at hrep
    · exact absurd hrep (by simp)
    · have hctx : rep.context = (c.with_output payload counter).1 := by
        simp at hrep
        rw [← hrep]
      refine ⟨hctx, by rw [hctx]; rfl, by rw [hctx]; simp [RuleContext.with_output]; omega⟩

/-- C10 witness at a concrete guard, payload and context. -/
theorem C10_check_context_mutation_witness :
    ctxDemo.fresh 10 ∧
    (gDemo.check 5 .pre (some ctxDemo) 0 timer0 10).callerContext =
      { ctxDemo with inputs := 5 } ∧
    (gDemo.check 5 .post (some ctxDemo) 0 timer0 10).callerContext = ctxDemo :=
  ⟨by decide,
   (C10_check_context_mutation gDemo 5 ctxDemo 0 timer0 10 (by decide)).1,
   (C10_check_context_mutation gDemo 5 ctxDemo 0 timer0 10 (by decide)).2.2.2.1⟩

/-- C2: in a Protect-mode guarded call, when rule `k` (here the rule after
the prefix `l₁`, in configuration order) is the first rule of a stage to
produce a failing result, the call aborts with an exception, rules after
`k` in that stage are never evaluated, and the audit and performance sinks
receive events exactly for rules `1..k` of that stage — none for any later
rule.  The first conjunct covers a failure in the pre stage (the post stage
then never runs at all); the second covers a failure in the post stage
after a fully passing pre stage. -/
theorem C2_protect_fail_fast_no_later_rule_events {α : Type} (g : Guard α) (func : α → α)
    (argsKwargs guardNameVal noneV : α) (tPre tPost : Nat → Nat) (counter : Nat)
    (l₁ : List (BaseRule α)) (rule : BaseRule α) (l₂ : List (BaseRule α))
    (ctx : RuleContext α)
    (hctx : ctx = (g.build_context argsKwargs guardNameVal noneV counter).1)
    (ctxOut : RuleContext α)
    (hout : ctxOut = (ctx.with_output (func argsKwargs)
      (g.build_context argsKwargs guardNameVal noneV counter).2).1) :
    (g.rules_for_stage .pre = l₁ ++ rule :: l₂ →
      (∀ r ∈ l₁, r.validate_roles (g.resolve_roles ctx) = .ok () ∧
        (r.evaluate ctx.inputs ctx .pre).passed = true) →
      rule.validate_roles (g.resolve_roles ctx) = .ok () →
      (rule.evaluate ctx.inputs ctx .pre).passed = false →
      g.protect_sync_call func argsKwargs guardNameVal noneV tPre tPost counter =
        (⟨stageAudit ctx.inputs ctx .pre tPre (l₁ ++ [rule]) 0,
          stagePerf ctx.inputs ctx .pre tPre (l₁ ++ [rule]) 0⟩,
         .error (.guardError (violationText rule.name .pre)
           (some (.guardViolation (violationText rule.name .pre)
             [execute_rule rule ctx.inputs ctx .pre (tPre l₁.length)] ctx))))) ∧
    (g.rules_for_stage .post = l₁ ++ rule :: l₂ →
      (∀ r ∈ g.rules_for_stage .pre, r.validate_roles (g.resolve_roles ctx) = .ok () ∧
        (r.evaluate ctx.inputs ctx .pre).passed = true) →
      (∀ r ∈ l₁, r.validate_roles (g.resolve_roles ctxOut) = .ok () ∧
        (r.evaluate ctxOut.output ctxOut .post).passed = true) →
      rule.validate_roles (g.resolve_roles ctxOut) = .ok () →
      (rule.evaluate ctxOut.output ctxOut .post).passed = false →
      g.protect_sync_call func argsKwargs guardNameVal noneV tPre tPost counter =
        (⟨stageAudit ctx.inputs ctx .pre tPre (g.rules_for_stage .pre) 0 ++
            stageAudit ctxOut.output ctxOut .post tPost (l₁ ++ [rule]) 0,
          stagePerf ctx.inputs ctx .pre tPre (g.rules_for_stage .pre) 0 ++
            stagePerf ctxOut.output ctxOut .post tPost (l₁ ++ [rule]) 0⟩,
         .error (.guardError (violationText rule.name .post)
           (some (.guardViolation (violationText rule.name .post)
             [execute_rule rule ctxOut.output ctxOut .post (tPost l₁.length)] ctxOut))))) := by
  constructor
  · intro hsel hl₁ hrok hrfail
    subst hout
    subst hctx
    simp only [Guard.protect_sync_call, Guard.run_stage_sync]
    rw [hsel, run_rules_sync_abort _ _ _ _ _ l₁ rule l₂ 0 [] Sinks.empty hl₁ hrok hrfail]
    simp [Sinks.empty]
  · intro hsel hpre hl₁ hrok hrfail
    subst hout
    subst hctx
    simp only [Guard.protect_sync_call, Guard.run_stage_sync]
    rw [run_rules_sync_no_abort _ _ _ true _ tPre (g.rules_for_stage .pre) 0 [] Sinks.empty
      (fun r hr => ⟨(hpre r hr).1, Or.inl (hpre r hr).2⟩)]
    simp only [Sinks.empty]
    rw [hsel, run_rules_sync_abort _ _ _ _ _ l₁ rule l₂ 0 [] _ hl₁ hrok hrfail]
    simp

/-- C2 witness: a concrete Protect-mode call on a guard whose pre stage is
`[passRule, failRule, spyRule]`: the first rule passes, the second fails
first, and the sink traces contain events for exactly those two rules;
`spyRule` is never evaluated and never reaches the sinks. -/
theorem C2_protect_fail_fast_no_later_rule_events_witness :
    gSpy.rules_for_stage .pre = [passRule] ++ failRule :: [spyRule] ∧
    gSpy.protect_sync_call (fun x => x) 7 1 0 timer0 timer0 0 =
      (⟨stageAudit (gSpy.build_context 7 1 0 0).1.inputs (gSpy.build_context 7 1 0 0).1
          .pre timer0 ([passRule] ++ [failRule]) 0,
        stagePerf (gSpy.build_context 7 1 0 0).1.inputs (gSpy.build_context 7 1 0 0).1
          .pre timer0 ([passRule] ++ [failRule]) 0⟩,
       .error (.guardError (violationText failRule.name .pre)
         (some (.guardViolation (violationText failRule.name .pre)
           [execute_rule failRule (gSpy.build_context 7 1 0 0).1.inputs
             (gSpy.build_context 7 1 0 0).1 .pre (timer0 [passRule].length)]
           (gSpy.build_context 7 1 0 0).1)))) :=
  ⟨rfl,
   (C2_protect_fail_fast_no_later_rule_events gSpy (fun x => x) 7 1 0 timer0 timer0 0
      [passRule] failRule [spyRule] (gSpy.build_context 7 1 0 0).1 rfl
      ((gSpy.build_context 7 1 0 0).1.with_output 7 (gSpy.build_context 7 1 0 0).2).1
      rfl).1
     rfl
     (by intro r hr; fin_cases hr; exact ⟨rfl, rfl⟩)
     rfl rfl⟩

/-- C4: with resolved role set `R = resolve_roles(context)` (which is
empty whenever no resolver is configured), a selected rule placed first in
the stage order clears role validation iff its required-role set is a
subset of `R`.  If it is not, an `RBACError`-class failure occurs — the
stage runner surfaces it wrapped in a base-class `GuardError` whose cause
is the `RBACError` — the rule body is never invoked, and no sink receives
any event; if it is, the rule body runs and its result is dispatched as the
next audit event. -/
theorem C4_rbac_gate_iff_subset {α : Type} (g : Guard α) (stage : Stage) (payload : α)
    (context : RuleContext α) (rof : Bool) (timer : Nat → Nat) (sinks0 : Sinks α)
    (rule : BaseRule α) (rest : List (BaseRule α))
    (hsel : g.rules_for_stage stage = rule :: rest) :
    (rule.validate_roles (g.resolve_roles context) = .ok () ↔
      ∀ s ∈ rule.required_roles, s ∈ g.resolve_roles context) ∧
    (g.rbac_resolver = none → g.resolve_roles context = []) ∧
    (¬ (∀ s ∈ rule.required_roles, s ∈ g.resolve_roles context) →
      g.run_stage_sync stage payload context rof timer sinks0 =
        (sinks0, .error (.guardError
          ("Rule '" ++ rule.name ++ "' requires roles that were not provided.")
          (some (.rbacError
            ("Rule '" ++ rule.name ++ "' requires roles that were not provided.")))))) ∧
    ((∀ s ∈ rule.required_roles, s ∈ g.resolve_roles context) →
      ∃ suffix, (g.run_stage_sync stage payload context rof timer sinks0).1.auditEvents =
        sinks0.auditEvents ++
          mkAuditEvent (execute_rule rule payload context stage (timer 0)) context
            :: suffix) := by
  have hiff : rule.validate_roles (g.resolve_roles context) = .ok () ↔
      ∀ s ∈ rule.required_roles, s ∈ g.resolve_roles context := by
    by_cases hemp : rule.required_roles.isEmpty
    · have hreq : rule.required_roles = [] := List.isEmpty_iff.mp hemp
      simp [BaseRule.validate_roles, hemp, hreq]
    · simp [BaseRule.validate_roles, hemp]
  refine ⟨hiff, fun h => by simp [Guard.resolve_roles, h], ?_, ?_⟩
  · intro hns
    have hdeny : rule.validate_roles (g.resolve_roles context) =
        .error (.rbacError
          ("Rule '" ++ rule.name ++ "' requires roles that were not provided.")) := by
      have hemp : rule.required_roles.isEmpty = false := by
        cases hreq : rule.required_roles with
        | nil => exact absurd (by simp [hreq]) hns
        | cons a l => simp [hreq]
      simp [BaseRule.validate_roles, hemp, hns]
    simp only [Guard.run_stage_sync]
    rw [hsel, run_rules_sync_rbac_denied _ _ _ _ _ _ _ _ _ _ _ _ hdeny]
    rfl
  · intro hs
    simp only [Guard.run_stage_sync]
    rw [hsel]
    exact run_rules_sync_head_executed _ _ _ _ _ _ _ _ _ _ _ (hiff.mpr hs)

/-- C4 witness: the RBAC-gated rule with no resolver: the role set resolves
empty, the subset test fails, the body never runs and the wrapped
`RBACError` surfaces. -/
theorem C4_rbac_gate_iff_subset_witness :
    (¬ (∀ s ∈ adminRule.required_roles, s ∈ gAdmin.resolve_roles ctxDemo)) ∧
    gAdmin.run_stage_sync .post 5 ctxDemo false timer0 Sinks.empty =
      (Sinks.empty, .error (.guardError
        ("Rule '" ++ adminRule.name ++ "' requires roles that were not provided.")
        (some (.rbacError
          ("Rule '" ++ adminRule.name ++ "' requires roles that were not provided."))))) :=
  ⟨by decide,
   (C4_rbac_gate_iff_subset gAdmin .post 5 ctxDemo false timer0 Sinks.empty adminRule []
      rfl).2.2.1 (by decide)⟩

/-- C6: every rule evaluation that produces a `RuleResult` during a stage
run dispatches exactly one audit event and one performance record — the
trace lists are literally the per-result event maps — and the dispatch
happens before the abort decision: in Check mode all selected rules
contribute one event each; in Protect mode with a first failure the trace
ends with the event of the failing result itself, which is therefore
dispatched to both sinks even though the run aborts on it. -/
theorem C6_sinks_one_event_per_result_before_abort {α : Type} (g : Guard α) (stage : Stage)
    (payload : α) (context : RuleContext α) (rof : Bool) (timer : Nat → Nat)
    (sinks0 : Sinks α) (l₁ : List (BaseRule α)) (rule : BaseRule α) (l₂ : List (BaseRule α)) :
    ((∀ r ∈ g.rules_for_stage stage, r.validate_roles (g.resolve_roles context) = .ok () ∧
        ((r.evaluate payload context stage).passed = true ∨ rof = false)) →
      g.run_stage_sync stage payload context rof timer sinks0 =
        (⟨sinks0.auditEvents ++
            stageAudit payload context stage timer (g.rules_for_stage stage) 0,
          sinks0.perfEvents ++
            stagePerf payload context stage timer (g.rules_for_stage stage) 0⟩,
         .ok (stageResults payload context stage timer (g.rules_for_stage stage) 0))) ∧
    (g.rules_for_stage stage = l₁ ++ rule :: l₂ →
      (∀ r ∈ l₁, r.validate_roles (g.resolve_roles context) = .ok () ∧
        (r.evaluate payload context stage).passed = true) →
      rule.validate_roles (g.resolve_roles context) = .ok () →
      (rule.evaluate payload context stage).passed = false →
      g.run_stage_sync stage payload context true timer sinks0 =
        (⟨sinks0.auditEvents ++
            stageAudit payload context stage timer (l₁ ++ [rule]) 0,
          sinks0.perfEvents ++
            stagePerf payload context stage timer (l₁ ++ [rule]) 0⟩,
         .error (.guardError (violationText rule.name stage)
           (some (.guardViolation (violationText rule.name stage)
             [execute_rule rule payload context stage (timer l₁.length)] context))))) ∧
    stageAudit payload context stage timer (l₁ ++ [rule]) 0 =
      (stageResults payload context stage timer (l₁ ++ [rule]) 0).map
        (fun r => mkAuditEvent r context) ∧
    stagePerf payload context stage timer (l₁ ++ [rule]) 0 =
      (stageResults payload context stage timer (l₁ ++ [rule]) 0).map
        (fun r => (r, context)) := by
  refine ⟨?_, ?_, rfl, rfl⟩
  · intro h
    simp only [Guard.run_stage_sync]
    rw [run_rules_sync_no_abort _ _ _ _ _ _ (g.rules_for_stage stage) 0 [] sinks0 h]
    simp
  · intro hsel hl₁ hrok hrfail
    simp only [Guard.run_stage_sync]
    rw [hsel, run_rules_sync_abort _ _ _ _ _ l₁ rule l₂ 0 [] sinks0 hl₁ hrok hrfail]
    simp

/-- C6 witness: the Protect-abort case at a concrete guard whose post
stage is `[passRule, failRule]`: both results are dispatched, the failing
one included, and the run aborts. -/
theorem C6_sinks_one_event_per_result_before_abort_witness :
    gDemo.run_stage_sync .post 5 ctxDemo true timer0 Sinks.empty =
      (⟨Sinks.empty.auditEvents ++
          stageAudit 5 ctxDemo .post timer0 ([passRule] ++ [failRule]) 0,
        Sinks.empty.perfEvents ++
          stagePerf 5 ctxDemo .post timer0 ([passRule] ++ [failRule]) 0⟩,
       .error (.guardError (violationText failRule.name .post)
         (some (.guardViolation (violationText failRule.name .post)
           [execute_rule failRule 5 ctxDemo .post (timer0 [passRule].length)] ctxDemo)))) :=
  (C6_sinks_one_event_per_result_before_abort gDemo .post 5 ctxDemo true timer0 Sinks.empty
      [passRule] failRule []).2.1
    rfl
    (by intro r hr; fin_cases hr; exact ⟨rfl, rfl⟩)
    rfl rfl

/-- C7: for a guard whose rules all use the default async variant (which
just runs the synchronous `evaluate`), `check_async` agrees with `check`
on the same inputs up to latency: the whole outcome — caller-context
effect, sink traces, and report or exception — is equal after zeroing
latencies, and in particular two successful reports have the same `passed`
verdict and the same rule names, pass flags, stages, severities and
details in `pre_results`, `post_results` and `failures`. -/
theorem C7_check_async_matches_check {α : Type} (g : Guard α) (payload : α) (stage : Stage)
    (contextOpt : Option (RuleContext α)) (noneV : α) (t1 t2 : Nat → Nat) (counter : Nat)
    (h : ∀ r ∈ g.rules, r.evaluate_async = r.evaluate) :
    eraseCheck (g.check_async payload stage contextOpt noneV t2 counter) =
      eraseCheck (g.check payload stage contextOpt noneV t1 counter) ∧
    (∀ ra rc, (g.check_async payload stage contextOpt noneV t2 counter).outcome = .ok ra →
      (g.check payload stage contextOpt noneV t1 counter).outcome = .ok rc →
      ra.passed = rc.passed ∧
      eraseRL ra.failures = eraseRL rc.failures ∧
      eraseRL ra.pre_results = eraseRL rc.pre_results ∧
      eraseRL ra.post_results = eraseRL rc.post_results ∧
      ra.context = rc.context) := by
  have hmain := check_erase_eq g payload stage contextOpt noneV t1 t2 counter h
  refine ⟨hmain, ?_⟩
  intro ra rc hA hB
  have houtcome := congrArg CheckOutcome.outcome hmain
  simp only [eraseCheck] at houtcome
  rw [hA, hB] at houtcome
  simp only [Except.map, Except.mapError, Except.ok.injEq] at houtcome
  refine ⟨?_, ?_, ?_, ?_, ?_⟩
  · rw [← eraseReport_passed ra, ← eraseReport_passed rc, houtcome]
  · rw [← eraseReport_failures ra, ← eraseReport_failures rc, houtcome]
  · have h3 := congrArg GuardReport.pre_results houtcome
    exact h3
  · have h4 := congrArg GuardReport.post_results houtcome
    exact h4
  · have h5 := congrArg GuardReport.context houtcome
    exact h5

/-- C7 witness: a concrete guard with default async rules, where the two
entry points produce latency-erased-equal outcomes. -/
theorem C7_check_async_matches_check_witness :
    eraseCheck (gDemo.check_async 5 .post none 0 timer0 0) =
      eraseCheck (gDemo.check 5 .post none 0 timer0 0) :=
  (C7_check_async_matches_check gDemo 5 .post none 0 timer0 timer0 0
    (by intro r hr; fin_cases hr <;> rfl)).1

end Guardrails
